import Mathlib

/-!
Shallow embedding of the surface-commit pipeline of the `jay` Wayland
compositor, translated from `src/ifs/wl_surface.rs`.  The embedding covers
the data and control flow needed for the claims about:

* `WlSurface::verify_explicit_sync`             (explicit-sync validation)
* `PendingState::merge`                         (delta merging)
* `impl Drop for SurfaceBuffer`                 (buffer release protocol)
* `WlSurface::attach` / `WlSurface::offset`     (pending offset recording)
* `WlSurface::apply_state`                      (commit application:
  viewport validation, sample-geometry normalization, destination size)
* `WlSurface::set_role`                         (role assignment)

Auxiliary types whose source files are not part of the extracted sources
(`fixed.rs`, `rect.rs`, `utils/transform_ext.rs`, the `jay_config`
`Transform` enum) are modelled from the specification; each such
definition carries a doc comment saying so.  Side effects (client events,
logging, fence ioctls) are modelled as explicit event lists; reference
counting is modelled by value copies; f32 arithmetic in the
sample-geometry computation is modelled exactly over `ℚ` (all claim
inputs are exactly representable in f32, where the two agree).
-/

namespace Jay

/-- Modelled from the spec: the buffer transform, "one of 8 values:
4 rotations x optional flip" (the `jay_config` `Transform` enum, whose
source is not among the extracted files). -/
inductive Transform where
  | none
  | rotate90
  | rotate180
  | rotate270
  | flip
  | flipRotate90
  | flipRotate180
  | flipRotate270
deriving DecidableEq, Repr

/-- Modelled from the spec: `TransformExt::maybe_swap` from
`utils/transform_ext.rs` (not among the extracted files) swaps the two
components of a size for the 90/270-degree rotations ("transform-swapped
... buffer pixel size"). -/
def Transform.maybeSwap (t : Transform) (size : Int × Int) : Int × Int :=
  match t with
  | .none | .rotate180 | .flip | .flipRotate180 => size
  | .rotate90 | .rotate270 | .flipRotate90 | .flipRotate270 => (size.2, size.1)

/-- Modelled from the spec: `Fixed` from `fixed.rs` (not among the
extracted files) is a 24.8 fixed-point number ("fixed-point coordinates"),
stored as its raw value in units of 1/256.  `isInteger` tests whether the
fractional bits vanish; `toInt` floors (the claims only ever apply it to
integer values, where every rounding convention agrees); `toRat` is the
exact rational value, standing in for `to_f64`. -/
structure Fixed where
  raw : Int
deriving DecidableEq, Repr

def Fixed.isInteger (f : Fixed) : Bool :=
  f.raw % 256 == 0

def Fixed.toInt (f : Fixed) : Int :=
  Int.fdiv f.raw 256

def Fixed.toRat (f : Fixed) : ℚ :=
  (f.raw : ℚ) / 256

/-- Embed an integer as a `Fixed` value. -/
def Fixed.ofInt (n : Int) : Fixed :=
  ⟨n * 256⟩

/-- Modelled from the spec: the axis-aligned rectangle from `rect.rs`
(not among the extracted files): "immutable axis-aligned rectangle ...
algebra used throughout".  Only the operations used by the embedded code
are provided. -/
structure Rect where
  x1 : Int
  y1 : Int
  x2 : Int
  y2 : Int
deriving DecidableEq, Repr

/-- The size `(width, height)` of a rectangle. -/
def Rect.size (r : Rect) : Int × Int :=
  (r.x2 - r.x1, r.y2 - r.y1)

/-- Keep the position of a rectangle and replace its size
(`Rect::with_size`; the in-source caller unwraps the overflow check). -/
def Rect.withSize (r : Rect) (width height : Int) : Rect :=
  { x1 := r.x1, y1 := r.y1, x2 := r.x1 + width, y2 := r.y1 + height }

/-- A rectangle of width `w` and height `h` at the origin. -/
def Rect.ofSize (w h : Int) : Rect :=
  { x1 := 0, y1 := 0, x2 := w, y2 := h }

/-- A `(sync object, timeline point)` pair, `(Rc<SyncObj>, SyncObjPoint)`
in the source; both components are modelled by their identity. -/
structure SyncPoint where
  syncObj : Nat
  point : Nat
deriving DecidableEq, Repr

/-- The part of `WlBuffer` visible to the commit pipeline: identity, the
client-side destroyed flag (`WlBuffer::destroyed`), the buffer pixel
rectangle (`WlBuffer::rect`) and whether the buffer is GPU-backed
(`WlBuffer::dmabuf.is_some()`). -/
structure WlBuffer where
  id : Nat
  destroyed : Bool
  rect : Rect
  dmabuf : Bool
deriving DecidableEq, Repr

/-- The `AcquireSync` enum from `gfx_api.rs` (the `SyncFile` payload is
modelled by its identity). -/
inductive AcquireSync where
  | none
  | implicit
  | syncFile (syncFile : Nat)
  | unnecessary
deriving DecidableEq, Repr

/-- The `ReleaseSync` enum from `gfx_api.rs`. -/
inductive ReleaseSync where
  | none
  | implicit
  | explicit
deriving DecidableEq, Repr

/-- The source rectangle `[Fixed; 4]` stored by the viewport, with the
source's index convention `[0] = x, [1] = y, [2] = width, [3] = height`
named. -/
structure SrcRect where
  x : Fixed
  y : Fixed
  w : Fixed
  h : Fixed
deriving DecidableEq, Repr

/-- The `SurfaceRole` enum: the protocol-level purpose of a surface. -/
inductive SurfaceRole where
  | none
  | subsurface
  | xdgSurface
  | cursor
  | dndIcon
  | zwlrLayerSurface
  | xSurface
  | extSessionLockSurface
deriving DecidableEq, Repr

/-- The errors of `WlSurfaceError` reachable inside the embedded
fragment (`#[derive(Error)] pub enum WlSurfaceError`). -/
inductive WlSurfaceError where
  | incompatibleRole (id : Nat) (old new : SurfaceRole)
  | nonPositiveBufferScale
  | unknownBufferTransform (wl : Int)
  | nonIntegerViewportSize
  | viewportOutsideBuffer
  | offsetInAttach
  | missingSyncPoints
  | unexpectedSyncPoints
deriving DecidableEq, Repr

/-- The per-surface pending-state accumulator (`struct PendingState` in
`wl_surface.rs`).  Client-object references (`Rc<WlCallback>`,
`Rc<WpPresentationFeedback>`, `Rc<Region>`, `ContentType`) are modelled
by their identities.  The role-extension fields (`subsurface`,
`xdg_surface`, `layer_surface`) and the nested per-child accumulators
(`subsurfaces`) are outside the modelled fragment: no settled claim
depends on them, and their merge follows the documented recursive
scheme. -/
structure PendingState where
  buffer : Option (Option WlBuffer) := Option.none
  offset : Int × Int := (0, 0)
  opaqueRegion : Option (Option Nat) := Option.none
  inputRegion : Option (Option Nat) := Option.none
  frameRequest : List Nat := []
  damage : Bool := false
  presentationFeedback : List Nat := []
  srcRect : Option (Option SrcRect) := Option.none
  dstSize : Option (Option (Int × Int)) := Option.none
  scale : Option Int := Option.none
  transform : Option Transform := Option.none
  xwaylandSerial : Option Nat := Option.none
  tearing : Option Bool := Option.none
  contentType : Option (Option Nat) := Option.none
  acquirePoint : Option SyncPoint := Option.none
  releasePoint : Option SyncPoint := Option.none
  explicitSync : Bool := false
deriving DecidableEq, Repr

/-- Client-visible side effects emitted by `PendingState::merge`:
signalling a release point (`client.state.signal_point`), sending a
legacy buffer release (`prev.send_release`) and discarding a
presentation feedback (`fb.send_discarded`). -/
inductive MergeEvent where
  | signalPoint (pt : SyncPoint)
  | sendRelease (bufferId : Nat)
  | sendDiscarded (feedbackId : Nat)
deriving DecidableEq, Repr

/-- The last-writer-wins rule of the `opt!` macro in
`PendingState::merge`: `if let Some(n) = next.f.take() { self.f = Some(n) }`. -/
def optMerge {α : Type} (selfField nextField : Option α) : Option α :=
  match nextField with
  | some n => some n
  | none => selfField

/-- `PendingState::merge`: fold the newer pending delta `next` into the
older delta `self`, returning the merged delta together with the list of
client-visible events the source emits, in emission order.  The
recursive merge of nested subsurface accumulators and of the
role-extension data is outside the modelled fragment. -/
def PendingState.merge (self next : PendingState) : PendingState × List MergeEvent :=
  -- discard state
  let (self, releaseEvents) :=
    if next.buffer.isSome then
      match self.releasePoint with
      | some pt => ({ self with releasePoint := Option.none }, [MergeEvent.signalPoint pt])
      | none =>
        match self.buffer with
        | some (some prev) =>
          ({ self with buffer := Option.none },
            if prev.destroyed then [] else [MergeEvent.sendRelease prev.id])
        | _ => ({ self with buffer := Option.none }, [])
    else (self, [])
  let discardEvents := self.presentationFeedback.map MergeEvent.sendDiscarded
  let self := { self with presentationFeedback := [] }
  -- overwrite state
  let merged : PendingState :=
    { buffer := optMerge self.buffer next.buffer
      opaqueRegion := optMerge self.opaqueRegion next.opaqueRegion
      inputRegion := optMerge self.inputRegion next.inputRegion
      srcRect := optMerge self.srcRect next.srcRect
      dstSize := optMerge self.dstSize next.dstSize
      scale := optMerge self.scale next.scale
      transform := optMerge self.transform next.transform
      xwaylandSerial := optMerge self.xwaylandSerial next.xwaylandSerial
      tearing := optMerge self.tearing next.tearing
      contentType := optMerge self.contentType next.contentType
      acquirePoint := optMerge self.acquirePoint next.acquirePoint
      releasePoint := optMerge self.releasePoint next.releasePoint
      offset := (self.offset.1 + next.offset.1, self.offset.2 + next.offset.2)
      frameRequest := self.frameRequest ++ next.frameRequest
      damage := self.damage || next.damage
      presentationFeedback := next.presentationFeedback
      explicitSync := self.explicitSync }
  (merged, releaseEvents ++ discardEvents)

/-- The `have_new_buffer` computation of `WlSurface::verify_explicit_sync`:
the pending state newly attaches a (non-null) buffer. -/
def PendingState.haveNewBuffer (pending : PendingState) : Bool :=
  match pending.buffer with
  | none => false
  | some b => b.isSome

/-- `WlSurface::verify_explicit_sync`, run at the start of
`WlSurface::commit` before the pending state is queued.
`syncObjAttached` models `self.sync_obj_surface.is_some()`. -/
def verifyExplicitSync (syncObjAttached : Bool) (pending : PendingState) :
    Except WlSurfaceError PendingState :=
  let pending := { pending with explicitSync := syncObjAttached }
  if !pending.explicitSync then
    .ok pending
  else
    match pending.releasePoint.isSome, pending.acquirePoint.isSome, pending.haveNewBuffer with
    | true, true, true => .ok pending
    | false, false, false => .ok pending
    | _, _, true => .error WlSurfaceError.missingSyncPoints
    | _, _, false => .error WlSurfaceError.unexpectedSyncPoints

/-- `WlSurface::set_role`: attempt to assign `new` to a surface (of wire
id `id`) whose current role is `current`; on success the role becomes
`new`, otherwise the role is unchanged and the incompatible-role error
is raised. -/
def setRole (id : Nat) (current new : SurfaceRole) : Except WlSurfaceError SurfaceRole :=
  if current = SurfaceRole.none then
    .ok new
  else if current = new then
    .ok new
  else
    .error (WlSurfaceError.incompatibleRole id current new)

/-- Protocol version from which the `offset` request exists and `attach`
must not carry an offset (`OFFSET_SINCE`). -/
def OFFSET_SINCE : Nat := 5

/-- Errors at the request-dispatch layer: a request opcode that is not
dispatched for the client's bound version (the `if self.version >= n`
guards of `object_base!`) is a client error. -/
inductive RequestError where
  | surfaceError (e : WlSurfaceError)
  | methodNotAvailable
deriving DecidableEq, Repr

/-- `WlSurface::attach`: record a buffer attach in the pending state.
From version `OFFSET_SINCE` on, a nonzero offset in the request is the
protocol error `OffsetInAttach` and an allowed attach leaves the pending
offset untouched; below that version the request's offset overwrites the
pending offset.  The buffer slot is overwritten in either case. -/
def attach (version : Nat) (x y : Int) (buffer : Option WlBuffer)
    (pending : PendingState) : Except WlSurfaceError PendingState :=
  if version ≥ OFFSET_SINCE then
    if x ≠ 0 ∨ y ≠ 0 then
      .error WlSurfaceError.offsetInAttach
    else
      .ok { pending with buffer := some buffer }
  else
    .ok { pending with offset := (x, y), buffer := some buffer }

/-- The `offset` request (`WlSurface::offset`), dispatched only for
clients bound at version ≥ 5: it overwrites the pending offset. -/
def offsetRequest (version : Nat) (x y : Int) (pending : PendingState) :
    Except RequestError PendingState :=
  if version ≥ OFFSET_SINCE then
    .ok { pending with offset := (x, y) }
  else
    .error RequestError.methodNotAvailable

/-- The committed buffer reference (`struct SurfaceBuffer`), holding the
attached buffer, the accumulated per-consumer release fences
(`sync_files`, modelled by fence identities), the acquire/release sync
modes, and the optional explicit release point
(`SurfaceBufferExplicitRelease`). -/
structure SurfaceBuffer where
  buffer : WlBuffer
  syncFiles : List Nat := []
  sync : AcquireSync := AcquireSync.implicit
  releaseSync : ReleaseSync := ReleaseSync.implicit
  release : Option SyncPoint := Option.none
deriving DecidableEq, Repr

/-- The environment of `impl Drop for SurfaceBuffer`: whether a render
context is available (`client.state.render_ctx.get()`), and the outcomes
of the fallible kernel calls `import_sync_files` and `signal`. -/
structure DropEnv where
  renderCtx : Bool
  importOk : Bool
  signalOk : Bool
deriving DecidableEq, Repr

/-- Observable actions of `impl Drop for SurfaceBuffer`, in emission
order.  The `ok` flags record the outcome of the corresponding kernel
call; a failure is only logged by the source. -/
inductive DropEvent where
  | logNoRenderCtx
  | importSyncFiles (pt : SyncPoint) (files : List Nat) (ok : Bool)
  | signalPoint (pt : SyncPoint) (ok : Bool)
  | dmabufImportSyncFile (file : Nat)
  | sendRelease (bufferId : Nat)
deriving DecidableEq, Repr

/-- `impl Drop for SurfaceBuffer`: the action trace emitted when a
committed buffer is detached (replaced by a later commit or dropped on
surface destruction). -/
def SurfaceBuffer.dropTrace (sb : SurfaceBuffer) (env : DropEnv) : List DropEvent :=
  match sb.release with
  | some release =>
    if !env.renderCtx then
      [DropEvent.logNoRenderCtx]
    else if sb.syncFiles ≠ [] ∧ env.importOk then
      [DropEvent.importSyncFiles release sb.syncFiles true]
    else
      (if sb.syncFiles ≠ [] then [DropEvent.importSyncFiles release sb.syncFiles false] else [])
        ++ [DropEvent.signalPoint release env.signalOk]
  | none =>
    (if sb.buffer.dmabuf then sb.syncFiles.map DropEvent.dmabufImportSyncFile else [])
      ++ (if !sb.buffer.destroyed then [DropEvent.sendRelease sb.buffer.id] else [])

/-- An event that resolves an explicit release point: a successful fence
spool into the point (`import_sync_files`), or the unconditional signal
call. -/
def DropEvent.isExplicitRelease : DropEvent → Bool
  | .importSyncFiles _ _ ok => ok
  | .signalPoint _ _ => true
  | _ => false

/-- An event that releases the buffer toward the client via the legacy
path. -/
def DropEvent.isLegacyRelease : DropEvent → Bool
  | .sendRelease _ => true
  | _ => false

/-- Any release action at all (explicit-point resolution, implicit
dmabuf fence import, or legacy release notification). -/
def DropEvent.isReleaseAction : DropEvent → Bool
  | .importSyncFiles _ _ ok => ok
  | .signalPoint _ _ => true
  | .dmabufImportSyncFile _ => true
  | .sendRelease _ => true
  | _ => false

/-- The scratch `struct BufferPoints` of `WlSurface`: the source
rectangle scaled into buffer pixel space (f32 in the source, exact `ℚ`
here).  `derive(Default)` zero-initializes every field. -/
structure BufferPoints where
  x1 : ℚ := 0
  x2 : ℚ := 0
  y1 : ℚ := 0
  y2 : ℚ := 0
deriving DecidableEq, Repr

/-- `SampleRect` from `gfx_api.rs`: the normalized sample rectangle
handed to the renderer (f32 in the source, exact `ℚ` here), plus the
buffer transform.  `derive(Default)` zero-initializes the coordinates. -/
structure SampleRect where
  x1 : ℚ := 0
  y1 : ℚ := 0
  x2 : ℚ := 0
  y2 : ℚ := 0
  bufferTransform : Transform := Transform.none
deriving DecidableEq, Repr

/-- The committed per-surface state of `struct WlSurface` touched by
`apply_state`, with the field defaults of `WlSurface::new`.  Tree links,
seat/cursor state, role extension objects and the commit timeline are
outside the modelled fragment. -/
structure Surface where
  destroyed : Bool := false
  role : SurfaceRole := SurfaceRole.none
  bufferScale : Int := 1
  bufferTransform : Transform := Transform.none
  srcRect : Option SrcRect := Option.none
  dstSize : Option (Int × Int) := Option.none
  buffer : Option SurfaceBuffer := Option.none
  bufX : Int := 0
  bufY : Int := 0
  bufferAbsPos : Rect := { x1 := 0, y1 := 0, x2 := 0, y2 := 0 }
  bufferPoints : BufferPoints := {}
  bufferPointsNorm : SampleRect := {}
  needExtentsUpdate : Bool := false
  frameRequests : List Nat := []
  presentationFeedback : List Nat := []
  inputRegion : Option Nat := Option.none
  opaqueRegion : Option Nat := Option.none
  tearing : Bool := false
  contentType : Option Nat := Option.none
  xwaylandSerial : Option Nat := Option.none
deriving DecidableEq, Repr

/-- Stage 1 of `apply_state` (source lines 856-874): move the pending
scale, transform, destination size and source rectangle into the
committed state, reporting which change flags were set.  Returns
`(surface, pending, scaleChanged, bufferTransformChanged,
viewportChanged)`. -/
def takeScalars (s : Surface) (p : PendingState) :
    Surface × PendingState × Bool × Bool × Bool :=
  let (scaleChanged, s, p) :=
    match p.scale with
    | some sc => (true, { s with bufferScale := sc }, { p with scale := Option.none })
    | none => (false, s, p)
  let (btChanged, s, p) :=
    match p.transform with
    | some t => (true, { s with bufferTransform := t }, { p with transform := Option.none })
    | none => (false, s, p)
  let (viewportChanged, s, p) :=
    match p.dstSize with
    | some d => (true, { s with dstSize := d }, { p with dstSize := Option.none })
    | none => (false, s, p)
  let (viewportChanged, s, p) :=
    match p.srcRect with
    | some r => (true, { s with srcRect := r }, { p with srcRect := Option.none })
    | none => (viewportChanged, s, p)
  (s, p, scaleChanged, btChanged, viewportChanged)

/-- Stage 2 of `apply_state` (source lines 875-883): if the viewport
changed and a source rectangle whose width or height is not an integer
is in effect without a destination size, the commit fails with the
size-ambiguity error. -/
def checkViewportSize (s : Surface) (viewportChanged : Bool) :
    Except WlSurfaceError Unit :=
  if viewportChanged then
    match s.srcRect with
    | some rect =>
      if s.dstSize = Option.none then
        if !rect.w.isInteger || !rect.h.isInteger then
          .error WlSurfaceError.nonIntegerViewportSize
        else
          .ok ()
      else
        .ok ()
    | none => .ok ()
  else
    .ok ()

/-- Stage 3 of `apply_state` (source lines 884-925): swap the committed
buffer.  The previous `SurfaceBuffer` (whose `Drop` emits the release
trace) is recorded via `oldRawSize`; a newly attached buffer captures
the pending release point and the accumulated offset is added to
`buf_x`/`buf_y`; a null attach resets them.  Returns
`(surface, pending, bufferChanged, oldRawSize)`.  Cursor-hotspot
adjustments are outside the modelled fragment. -/
def applyBufferSwap (s : Surface) (p : PendingState) (dx dy : Int) :
    Surface × PendingState × Bool × Option Rect :=
  match p.buffer with
  | some change =>
    let oldRawSize := s.buffer.map (fun b => b.buffer.rect)
    let s := { s with buffer := Option.none }
    let p := { p with buffer := Option.none }
    match change with
    | some buffer =>
      let (sync, releaseSync) :=
        match p.explicitSync with
        | false => (AcquireSync.implicit, ReleaseSync.implicit)
        | true => (AcquireSync.unnecessary, ReleaseSync.explicit)
      let release := p.releasePoint
      let p := { p with releasePoint := Option.none }
      let sb : SurfaceBuffer :=
        { buffer := buffer, syncFiles := [], sync := sync,
          releaseSync := releaseSync, release := release }
      let s := { s with buffer := some sb, bufX := s.bufX + dx, bufY := s.bufY + dy }
      let s := if (dx, dy) ≠ (0, 0) then { s with needExtentsUpdate := true } else s
      (s, p, true, oldRawSize)
    | none =>
      ({ s with bufX := 0, bufY := 0 }, p, true, oldRawSize)
  | none => (s, p, false, Option.none)

/-- The source-rectangle-to-buffer-pixel computation of `apply_state`
(source lines 933-947): the fixed-point source rectangle, converted to
floating point (exact `ℚ` here) and multiplied by the buffer scale when
it is not 1, as corner points. -/
def scaleBufferPoints (r : SrcRect) (scale : Int) : BufferPoints :=
  let x1 := r.x.toRat
  let y1 := r.y.toRat
  let width := r.w.toRat
  let height := r.h.toRat
  let (x1, y1, width, height) :=
    if scale ≠ 1 then
      let sc : ℚ := (scale : ℚ)
      (x1 * sc, y1 * sc, width * sc, height * sc)
    else
      (x1, y1, width, height)
  { x1 := x1, y1 := y1, x2 := x1 + width, y2 := y1 + height }

/-- The buffer-derived fallback size of `apply_state` (source lines
958-968): transform-swapped buffer pixel size, divided by the buffer
scale with ceiling rounding when the scale is not 1 (Rust `i32`
division; both sides are nonnegative in every reachable state). -/
def scaledBufferSize (bt : Transform) (scale : Int) (rect : Rect) : Int × Int :=
  let (width, height) := bt.maybeSwap rect.size
  if scale ≠ 1 then
    (Int.tdiv (width + scale - 1) scale, Int.tdiv (height + scale - 1) scale)
  else
    (width, height)

/-- The sample-rectangle normalization of `apply_state` (source lines
970-996): without a source rectangle the whole buffer `(0,0)-(1,1)` is
sampled; otherwise the scaled buffer points are divided by the
transform-swapped buffer size, and any normalized coordinate exceeding 1
is the `ViewportOutsideBuffer` protocol error. -/
def normSampleRect (s : Surface) (bp : BufferPoints) (bufRect : Rect) :
    Except WlSurfaceError SampleRect :=
  if s.srcRect.isNone then
    .ok { x1 := 0, y1 := 0, x2 := 1, y2 := 1, bufferTransform := s.bufferTransform }
  else
    let (width, height) := s.bufferTransform.maybeSwap bufRect.size
    let w : ℚ := (width : ℚ)
    let h : ℚ := (height : ℚ)
    let x1 := bp.x1 / w
    let x2 := bp.x2 / w
    let y1 := bp.y1 / h
    let y2 := bp.y2 / h
    if x1 > 1 ∨ x2 > 1 ∨ y1 > 1 ∨ y2 > 1 then
      .error WlSurfaceError.viewportOutsideBuffer
    else
      .ok { x1 := x1, y1 := y1, x2 := x2, y2 := y2, bufferTransform := s.bufferTransform }

/-- The tail of the geometry block of `apply_state` (source lines
998-1003): the new size (defaulting to `(0, 0)`) replaces the size of
the absolute position rectangle, marking the extents dirty if it
differs. -/
def applyNewSize (s : Surface) (newSize : Option (Int × Int)) : Surface :=
  let (width, height) := newSize.getD (0, 0)
  let s :=
    if (width, height) ≠ s.bufferAbsPos.size then
      { s with needExtentsUpdate := true }
    else
      s
  { s with bufferAbsPos := s.bufferAbsPos.withSize width height }

/-- Stage 4 of `apply_state` (source lines 926-1004): when the buffer or
any transform-affecting field changed, recompute the buffer points, the
destination size (explicit destination size first, else the integer
source-crop size, else the transform-swapped scale-divided buffer size)
and the normalized sample rectangle. -/
def recomputeGeometry (s : Surface) (oldRawSize : Option Rect)
    (bufferChanged transformChanged : Bool) : Except WlSurfaceError Surface :=
  if !(bufferChanged || transformChanged) then
    .ok s
  else
    let (bufferPoints, newSize) :=
      match s.srcRect with
      | some srcRect =>
        let bp :=
          if transformChanged then scaleBufferPoints srcRect s.bufferScale
          else s.bufferPoints
        let size :=
          match s.dstSize with
          | some ds => ds
          | none => (srcRect.w.toInt, srcRect.h.toInt)
        (bp, some size)
      | none => (s.bufferPoints, s.dstSize)
    let s := { s with bufferPoints := bufferPoints }
    match s.buffer with
    | some buffer =>
      let newSize :=
        if newSize.isNone then
          some (scaledBufferSize s.bufferTransform s.bufferScale buffer.buffer.rect)
        else
          newSize
      if transformChanged || some buffer.buffer.rect ≠ oldRawSize then
        match normSampleRect s bufferPoints buffer.buffer.rect with
        | .error e => .error e
        | .ok norm => .ok (applyNewSize { s with bufferPointsNorm := norm } newSize)
      else
        .ok (applyNewSize s newSize)
    | none => .ok (applyNewSize s newSize)

/-- Stage 5 of `apply_state` (source lines 1005-1040): flush the frame
requests, replace the presentation-feedback list (the previously
committed feedbacks are sent `discarded` first), apply region
replacements, the tearing flag, the content type and the xwayland
serial. -/
def flushRemaining (s : Surface) (p : PendingState) : Surface :=
  let s := { s with frameRequests := s.frameRequests ++ p.frameRequest }
  let s := { s with presentationFeedback := p.presentationFeedback }
  let s :=
    match p.inputRegion with
    | some region => { s with inputRegion := region }
    | none => s
  let s :=
    match p.opaqueRegion with
    | some region => { s with opaqueRegion := region }
    | none => s
  let s :=
    match p.tearing with
    | some t => { s with tearing := t }
    | none => s
  let s :=
    match p.contentType with
    | some ct => { s with contentType := ct }
    | none => s
  match p.xwaylandSerial with
  | some serial => { s with xwaylandSerial := some serial }
  | none => s

/-- `WlSurface::apply_state`: apply a pending delta to the committed
surface state.  The recursion into nested subsurface deltas, the
role-extension hooks (no-ops for the null extension), cursor updates and
the extents recomputation (the dirty flag is kept) are outside the
modelled fragment. -/
def Surface.applyState (s : Surface) (p : PendingState) :
    Except WlSurfaceError Surface :=
  if s.destroyed then
    .ok s
  else
    let (s, p, scaleChanged, btChanged, viewportChanged) := takeScalars s p
    match checkViewportSize s viewportChanged with
    | .error e => .error e
    | .ok _ =>
      let (dx, dy) := p.offset
      let p := { p with offset := (0, 0) }
      let (s, p, bufferChanged, oldRawSize) := applyBufferSwap s p dx dy
      let transformChanged := viewportChanged || scaleChanged || btChanged
      match recomputeGeometry s oldRawSize bufferChanged transformChanged with
      | .error e => .error e
      | .ok s => .ok (flushRemaining s p)

/-- A merge event that releases a superseded pending buffer toward the
client: the explicit release-point signal or the legacy release. -/
def MergeEvent.isBufferRelease : MergeEvent → Bool
  | .signalPoint _ => true
  | .sendRelease _ => true
  | .sendDiscarded _ => false

/-- A merge event that discards a presentation feedback. -/
def MergeEvent.isDiscard : MergeEvent → Bool
  | .sendDiscarded _ => true
  | _ => false

/-- A drop event that imports a fence into the buffer's implicit-sync
mechanism. -/
def DropEvent.isImplicitImport : DropEvent → Bool
  | .dmabufImportSyncFile _ => true
  | _ => false

/-- The source rectangle in effect once a pending delta has been folded
into the committed state (`self.src_rect.get()` after `apply_state` has
taken the pending field). -/
def effSrcRect (s : Surface) (p : PendingState) : Option SrcRect :=
  match p.srcRect with
  | some r => r
  | none => s.srcRect

/-- The destination size in effect once a pending delta has been folded
into the committed state. -/
def effDstSize (s : Surface) (p : PendingState) : Option (Int × Int) :=
  match p.dstSize with
  | some d => d
  | none => s.dstSize

/-- The buffer scale in effect once a pending delta has been folded into
the committed state. -/
def effScale (s : Surface) (p : PendingState) : Int :=
  match p.scale with
  | some sc => sc
  | none => s.bufferScale

/-- The buffer transform in effect once a pending delta has been folded
into the committed state. -/
def effTransform (s : Surface) (p : PendingState) : Transform :=
  match p.transform with
  | some t => t
  | none => s.bufferTransform

/-- The pixel rectangle of the buffer that is committed after the
buffer-swap stage: a newly attached buffer's rectangle, `none` after a
null attach, else the previously committed buffer's rectangle. -/
def effBufferRect (s : Surface) (p : PendingState) : Option Rect :=
  match p.buffer with
  | some (some b) => some b.rect
  | some none => Option.none
  | none => s.buffer.map (fun sb => sb.buffer.rect)

/-- Whether `apply_state` recomputes the sample geometry and destination
size for this delta (`buffer_changed || transform_changed`). -/
def recomputes (p : PendingState) : Bool :=
  p.buffer.isSome || p.scale.isSome || p.transform.isSome
    || p.dstSize.isSome || p.srcRect.isSome

/-- A 100x100 buffer used as concrete input. -/
def buf100 : WlBuffer :=
  { id := 1, destroyed := false, rect := Rect.ofSize 100 100, dmabuf := true }

/-- A second buffer used as concrete input. -/
def buf2 : WlBuffer :=
  { id := 2, destroyed := false, rect := Rect.ofSize 100 100, dmabuf := true }

/-- A concrete sync point used as concrete input. -/
def pt1 : SyncPoint := { syncObj := 3, point := 7 }

/-- The fractional source rectangle (0, 0, 10.5, 20); 10.5 is the raw
fixed-point value 2688 = 10.5 * 256. -/
def fractionalCropRect : SrcRect :=
  ⟨Fixed.ofInt 0, Fixed.ofInt 0, ⟨2688⟩, Fixed.ofInt 20⟩

/-- The integer source rectangle (0, 0, 10, 20). -/
def integerCropRect : SrcRect :=
  ⟨Fixed.ofInt 0, Fixed.ofInt 0, Fixed.ofInt 10, Fixed.ofInt 20⟩

/-- The out-of-bounds source rectangle (0, 0, 200, 200). -/
def oversizeCropRect : SrcRect :=
  ⟨Fixed.ofInt 0, Fixed.ofInt 0, Fixed.ofInt 200, Fixed.ofInt 200⟩

/-- The in-bounds source rectangle (0, 0, 50, 50). -/
def halfCropRect : SrcRect :=
  ⟨Fixed.ofInt 0, Fixed.ofInt 0, Fixed.ofInt 50, Fixed.ofInt 50⟩

/-- A pending delta attaching `buf100` with the fractional source crop
(0, 0, 10.5, 20) and no destination size. -/
def pendingFractionalCrop : PendingState :=
  { srcRect := some (some fractionalCropRect) }

/-- The same delta with the destination size (10, 20) also set. -/
def pendingFractionalCropWithDst : PendingState :=
  { srcRect := some (some fractionalCropRect), dstSize := some (some (10, 20)) }

/-- A pending delta with the integer source crop (0, 0, 10, 20) and no
destination size. -/
def pendingIntegerCrop : PendingState :=
  { srcRect := some (some integerCropRect) }

/-- A pending delta attaching the 100x100 buffer with the out-of-bounds
source crop (0, 0, 200, 200). -/
def pendingOversizeCrop : PendingState :=
  { buffer := some (some buf100), srcRect := some (some oversizeCropRect) }

/-- A pending delta attaching the 100x100 buffer with the in-bounds
integer source crop (0, 0, 50, 50) and no destination size. -/
def pendingHalfCrop : PendingState :=
  { buffer := some (some buf100), srcRect := some (some halfCropRect) }

/-- The half-crop delta with an explicit destination size (25, 30) also
set. -/
def pendingHalfCropWithDst : PendingState :=
  { buffer := some (some buf100), srcRect := some (some halfCropRect),
    dstSize := some (some (25, 30)) }

/-- A pending delta only attaching the 100x100 buffer. -/
def pendingBufferOnly : PendingState :=
  { buffer := some (some buf100) }

/-- A pending delta attaching the 100x100 buffer at buffer scale 3. -/
def pendingBufferScale3 : PendingState :=
  { buffer := some (some buf100), scale := some 3 }

/-- A surface whose committed state has destination size (25, 30) and
nothing else set. -/
def sDst : Surface := { dstSize := some (25, 30) }

/-- An older pending delta holding buffer `buf100`, a frame callback and
a presentation feedback. -/
def olderDelta : PendingState :=
  { buffer := some (some buf100), frameRequest := [10], presentationFeedback := [1] }

/-- A newer pending delta attaching `buf2`, with its own frame callback
and presentation feedback. -/
def newerDelta : PendingState :=
  { buffer := some (some buf2), frameRequest := [20], presentationFeedback := [2] }

/-- A committed surface buffer with an explicit release point and no
accumulated fences. -/
def sbExplicit : SurfaceBuffer :=
  { buffer := buf100, syncFiles := [], release := some pt1 }

/-- A committed surface buffer without an explicit release point and one
accumulated fence. -/
def sbImplicit : SurfaceBuffer :=
  { buffer := buf100, syncFiles := [11], release := Option.none }

/-- A drop environment with no render context. -/
def envNoCtx : DropEnv := { renderCtx := false, importOk := true, signalOk := true }

/-- A drop environment with a render context where every kernel call
succeeds. -/
def envOk : DropEnv := { renderCtx := true, importOk := true, signalOk := true }

/-- A pending delta newly attaching a buffer with both sync points
recorded. -/
def pendingExplicitBoth : PendingState :=
  { buffer := some (some buf100), acquirePoint := some pt1, releasePoint := some pt1 }

/-- A pending delta attaching a null buffer while a release point is
recorded. -/
def pendingNullAttachWithPoint : PendingState :=
  { buffer := some Option.none, releasePoint := some pt1 }

end Jay

deriving instance DecidableEq for Except

namespace Jay

/-! Helper lemmas shared by the claim theorems. -/

theorem filter_bufferRelease_map_discard (l : List Nat) :
    (l.map MergeEvent.sendDiscarded).filter MergeEvent.isBufferRelease = [] := by
  induction l with
  | nil => rfl
  | cons a t ih => simp [MergeEvent.isBufferRelease, ih]

theorem filter_isDiscard_map_discard (l : List Nat) :
    (l.map MergeEvent.sendDiscarded).filter MergeEvent.isDiscard =
      l.map MergeEvent.sendDiscarded := by
  induction l with
  | nil => rfl
  | cons a t ih => simp [MergeEvent.isDiscard, ih]

/-- C1: with an explicit-sync object attached, a commit newly attaching
a buffer passes `verify_explicit_sync` exactly when both the acquire and
the release point are recorded (otherwise: the missing-sync-points
protocol error), and a commit with no new buffer attach passes exactly
when neither point is recorded (otherwise: the unexpected-sync-points
protocol error).  The check runs before the commit is queued. -/
theorem verify_explicit_sync_spec (p : PendingState) :
    (p.haveNewBuffer = true →
      verifyExplicitSync true p =
        if p.releasePoint.isSome ∧ p.acquirePoint.isSome then
          .ok { p with explicitSync := true }
        else
          .error WlSurfaceError.missingSyncPoints) ∧
    (p.haveNewBuffer = false →
      verifyExplicitSync true p =
        if p.releasePoint.isSome ∨ p.acquirePoint.isSome then
          .error WlSurfaceError.unexpectedSyncPoints
        else
          .ok { p with explicitSync := true }) := by
  have hb : ({ p with explicitSync := true } : PendingState).haveNewBuffer
      = p.haveNewBuffer := rfl
  constructor <;> intro h <;>
    cases hr : p.releasePoint.isSome <;> cases ha : p.acquirePoint.isSome <;>
      simp [verifyExplicitSync, hb, h, hr, ha]

/-- Witness for C1: a delta attaching `buf100` with both points recorded
is accepted. -/
theorem verify_explicit_sync_spec_witness :
    pendingExplicitBoth.haveNewBuffer = true ∧
    verifyExplicitSync true pendingExplicitBoth =
      .ok { pendingExplicitBoth with explicitSync := true } := by
  refine ⟨rfl, ?_⟩
  have h := (verify_explicit_sync_spec pendingExplicitBoth).1 rfl
  simpa [pendingExplicitBoth] using h

/-- C10: with an explicit-sync object attached, a commit that attaches a
null buffer counts as having no new buffer: it is rejected with the
unexpected-sync-points error when an acquire or release point is
recorded and accepted when neither is. -/
theorem null_attach_counts_as_no_buffer (p : PendingState)
    (h : p.buffer = some Option.none) :
    verifyExplicitSync true p =
      if p.releasePoint.isSome ∨ p.acquirePoint.isSome then
        .error WlSurfaceError.unexpectedSyncPoints
      else
        .ok { p with explicitSync := true } := by
  have hb : p.haveNewBuffer = false := by
    simp [PendingState.haveNewBuffer, h]
  have hb2 : ({ p with explicitSync := true } : PendingState).haveNewBuffer
      = p.haveNewBuffer := rfl
  cases hr : p.releasePoint.isSome <;> cases ha : p.acquirePoint.isSome <;>
    simp [verifyExplicitSync, hb2, hb, hr, ha]

/-- Witness for C10: a null attach with a recorded release point is
rejected with the unexpected-sync-points error. -/
theorem null_attach_counts_as_no_buffer_witness :
    verifyExplicitSync true pendingNullAttachWithPoint =
      .error WlSurfaceError.unexpectedSyncPoints := by
  have h := null_attach_counts_as_no_buffer pendingNullAttachWithPoint rfl
  simpa [pendingNullAttachWithPoint] using h

/-- C9: while the role is unassigned any role can be set; once a role
other than `none` is assigned, re-setting the same role succeeds and
leaves it unchanged, and setting a different (non-`none`) role fails
with the incompatible-role error, the role unchanged (the error path
performs no assignment). -/
theorem set_role_spec (id : Nat) (current new : SurfaceRole) :
    (current = SurfaceRole.none → setRole id current new = .ok new) ∧
    (current ≠ SurfaceRole.none → new = current →
      setRole id current new = .ok current) ∧
    (current ≠ SurfaceRole.none → new ≠ current → new ≠ SurfaceRole.none →
      setRole id current new =
        .error (WlSurfaceError.incompatibleRole id current new)) := by
  refine ⟨fun h => ?_, fun h h2 => ?_, fun h h2 h3 => ?_⟩ <;>
    simp [setRole, h]
  · simp [h2]
  · intro h4
    exact absurd h4.symm h2

/-- Witness for C9: assigning `cursor` to a surface that already has the
`subsurface` role fails with the incompatible-role error. -/
theorem set_role_spec_witness :
    SurfaceRole.subsurface ≠ SurfaceRole.none ∧
    SurfaceRole.cursor ≠ SurfaceRole.subsurface ∧
    setRole 4 SurfaceRole.subsurface SurfaceRole.cursor =
      .error (WlSurfaceError.incompatibleRole 4 SurfaceRole.subsurface SurfaceRole.cursor) :=
  ⟨by decide, by decide,
    (set_role_spec 4 SurfaceRole.subsurface SurfaceRole.cursor).2.2
      (by decide) (by decide) (by decide)⟩

/-- C2: merging a newer delta that attaches buffer `B` into an older
un-applied delta holding pending buffer `A` leaves `B` as the merged
pending buffer, and `A` receives exactly one release: the older delta's
release point is signalled when recorded, otherwise the legacy release
event is sent unless `A` was already destroyed by the client. -/
theorem merge_superseded_buffer_release (self next : PendingState)
    (A B : WlBuffer) (hA : self.buffer = some (some A))
    (hB : next.buffer = some (some B)) :
    (self.merge next).1.buffer = some (some B) ∧
    (self.merge next).2.filter MergeEvent.isBufferRelease =
      (match self.releasePoint with
       | some pt => [MergeEvent.signalPoint pt]
       | none => if A.destroyed then [] else [MergeEvent.sendRelease A.id]) := by
  cases hrel : self.releasePoint with
  | some pt =>
    simp [PendingState.merge, optMerge, hA, hB, hrel,
      MergeEvent.isBufferRelease, filter_bufferRelease_map_discard]
  | none =>
    cases hd : A.destroyed <;>
      simp [PendingState.merge, optMerge, hA, hB, hrel, hd,
        MergeEvent.isBufferRelease, filter_bufferRelease_map_discard]

/-- Witness for C2: merging `newerDelta` (attaching `buf2`) into
`olderDelta` (holding the live `buf100` and no release point) sends
exactly the one legacy release for `buf100`. -/
theorem merge_superseded_buffer_release_witness :
    (olderDelta.merge newerDelta).1.buffer = some (some buf2) ∧
    (olderDelta.merge newerDelta).2.filter MergeEvent.isBufferRelease =
      [MergeEvent.sendRelease 1] := by
  have h := merge_superseded_buffer_release olderDelta newerDelta buf100 buf2 rfl rfl
  simpa [olderDelta, buf100] using h

/-- Counterexample for C7: merging `newerDelta` into `olderDelta` does
NOT concatenate the presentation-feedback lists — the merged list is the
newer delta's list alone (the older delta's feedback is discarded), so
the claimed concatenation `[1, 2]` is not what results. -/
theorem merge_feedback_not_concatenated :
    (olderDelta.merge newerDelta).1.presentationFeedback = [2] ∧
    olderDelta.presentationFeedback ++ newerDelta.presentationFeedback = [1, 2] ∧
    ([2] : List Nat) ≠ [1, 2] := by decide

/-- C7 as amended: merging a newer delta into an older one concatenates
the frame-callback lists (older followed by newer), while the older
delta's presentation feedbacks are each sent `discarded` and the merged
presentation-feedback list is the newer delta's list alone. -/
theorem merge_frame_concat_feedback_replaced (self next : PendingState) :
    (self.merge next).1.frameRequest = self.frameRequest ++ next.frameRequest ∧
    (self.merge next).1.presentationFeedback = next.presentationFeedback ∧
    (self.merge next).2.filter MergeEvent.isDiscard =
      self.presentationFeedback.map MergeEvent.sendDiscarded := by
  cases hb : next.buffer with
  | none => simp [PendingState.merge, hb, filter_isDiscard_map_discard]
  | some change =>
    cases hrel : self.releasePoint with
    | some pt =>
      simp [PendingState.merge, hb, hrel, MergeEvent.isDiscard,
        filter_isDiscard_map_discard]
    | none =>
      cases hsb : self.buffer with
      | none =>
        simp [PendingState.merge, hb, hrel, hsb, filter_isDiscard_map_discard]
      | some prev =>
        cases prev with
        | none =>
          simp [PendingState.merge, hb, hrel, hsb, filter_isDiscard_map_discard]
        | some prevBuf =>
          cases hd : prevBuf.destroyed <;>
            simp [PendingState.merge, hb, hrel, hsb, hd, MergeEvent.isDiscard,
              filter_isDiscard_map_discard]

/-- Counterexample for C4: the claimed request sequence cannot even run,
and offsets do not add up within one cycle.  At version 5 an attach
carrying offset (3,4) is the `OffsetInAttach` protocol error; below
version 5 the `offset` request is not dispatched at all; and two
consecutive `offset` requests overwrite — (3,4) then (1,1) leaves
pending offset (1,1), not the claimed accumulated (4,5). -/
theorem offset_accumulation_counterexample :
    attach 5 3 4 (some buf100) {} = .error WlSurfaceError.offsetInAttach ∧
    offsetRequest 4 1 1 { offset := (3, 4), buffer := some (some buf100) } =
      .error RequestError.methodNotAvailable ∧
    Except.bind (offsetRequest 5 3 4 {}) (offsetRequest 5 1 1) =
      .ok ({ offset := (1, 1) } : PendingState) ∧
    ((1 : Int), (1 : Int)) ≠ ((4 : Int), (5 : Int)) := by decide

/-- C4 as amended: within one uncommitted cycle a later `offset` request
overwrites the pending offset (last writer wins; an attach may not carry
a nonzero offset at version ≥ 5 at all), and offsets accumulate
additively only across two pending deltas folded together by
`PendingState::merge`. -/
theorem offset_overwrites_within_cycle (v : Nat) (hv : OFFSET_SINCE ≤ v)
    (p : PendingState) (x y x2 y2 : Int) (a b : PendingState) :
    Except.bind (offsetRequest v x y p) (offsetRequest v x2 y2) =
      .ok { p with offset := (x2, y2) } ∧
    (a.merge b).1.offset = (a.offset.1 + b.offset.1, a.offset.2 + b.offset.2) := by
  constructor
  · simp [offsetRequest, hv, Except.bind]
  · cases hb : b.buffer with
    | none => simp [PendingState.merge, hb]
    | some change =>
      cases hrel : a.releasePoint with
      | some pt => simp [PendingState.merge, hb, hrel]
      | none =>
        cases hsb : a.buffer with
        | none => simp [PendingState.merge, hb, hrel, hsb]
        | some prev =>
          cases prev with
          | none => simp [PendingState.merge, hb, hrel, hsb]
          | some prevBuf => simp [PendingState.merge, hb, hrel, hsb]

/-- Witness for the amended C4, at version 5 with offsets (3,4) then
(1,1) and the two concrete deltas `olderDelta`, `newerDelta`. -/
theorem offset_overwrites_within_cycle_witness :
    Except.bind (offsetRequest 5 3 4 {}) (offsetRequest 5 1 1) =
      .ok ({ offset := (1, 1) } : PendingState) ∧
    (olderDelta.merge newerDelta).1.offset = (0 + 0, 0 + 0) := by
  have h := offset_overwrites_within_cycle 5 (by decide) {} 3 4 1 1
    olderDelta newerDelta
  simpa [olderDelta, newerDelta] using h

/-- Counterexample for C3: when no render context is available, the drop
of a buffer that has an explicit release point registered performs no
release action at all — the point is left unsignalled and no legacy
release is sent ("never zero" fails; the source only logs). -/
theorem drop_no_render_ctx_counterexample :
    sbExplicit.dropTrace envNoCtx = [DropEvent.logNoRenderCtx] ∧
    (sbExplicit.dropTrace envNoCtx).any DropEvent.isReleaseAction = false := by
  decide

/-- C3 as amended: provided a render context is available, exactly one
of the two release paths runs.  With an explicit release point: exactly
one explicit resolution of the point (a successful import of the
accumulated fences, or the unconditional signal call when the import
fails or there are no fences), and neither a legacy release nor an
implicit import.  Without one: no explicit resolution, each accumulated
fence is imported into the buffer's implicit-sync mechanism exactly when
the buffer is GPU-backed, and the legacy release is sent exactly when
the client has not destroyed the buffer. -/
theorem drop_exactly_one_release_path (sb : SurfaceBuffer) (env : DropEnv)
    (hctx : env.renderCtx = true) :
    (∀ pt, sb.release = some pt →
      (sb.dropTrace env).countP DropEvent.isExplicitRelease = 1 ∧
      (sb.dropTrace env).countP DropEvent.isLegacyRelease = 0 ∧
      (sb.dropTrace env).countP DropEvent.isImplicitImport = 0) ∧
    (sb.release = Option.none →
      (sb.dropTrace env).countP DropEvent.isExplicitRelease = 0 ∧
      (sb.dropTrace env).countP DropEvent.isLegacyRelease =
        (if sb.buffer.destroyed then 0 else 1) ∧
      (sb.dropTrace env).countP DropEvent.isImplicitImport =
        (if sb.buffer.dmabuf then sb.syncFiles.length else 0)) := by
  constructor
  · intro pt hpt
    cases hfi : sb.syncFiles with
    | nil =>
      simp [SurfaceBuffer.dropTrace, hpt, hctx, hfi, DropEvent.isExplicitRelease,
        DropEvent.isLegacyRelease, DropEvent.isImplicitImport]
    | cons f fs =>
      cases him : env.importOk <;>
        simp [SurfaceBuffer.dropTrace, hpt, hctx, hfi, him,
          DropEvent.isExplicitRelease, DropEvent.isLegacyRelease,
          DropEvent.isImplicitImport, List.countP_cons]
  · intro hrel
    cases hdm : sb.buffer.dmabuf <;> cases hd : sb.buffer.destroyed <;>
      simp [SurfaceBuffer.dropTrace, hrel, hdm, hd, DropEvent.isExplicitRelease,
        DropEvent.isLegacyRelease, DropEvent.isImplicitImport,
        List.countP_append, List.countP_map, Function.comp]

/-- Witness for the amended C3: a buffer with an explicit release point
and no fences, dropped with a render context present, resolves the point
exactly once and sends no legacy release. -/
theorem drop_exactly_one_release_path_witness :
    (sbExplicit.dropTrace envOk).countP DropEvent.isExplicitRelease = 1 ∧
    (sbExplicit.dropTrace envOk).countP DropEvent.isLegacyRelease = 0 ∧
    (sbExplicit.dropTrace envOk).countP DropEvent.isImplicitImport = 0 :=
  (drop_exactly_one_release_path sbExplicit envOk rfl).1 pt1 rfl

theorem takeScalars_eq (s : Surface) (p : PendingState) :
    takeScalars s p =
      ({ s with
         bufferScale := effScale s p, bufferTransform := effTransform s p,
         dstSize := effDstSize s p, srcRect := effSrcRect s p },
       { p with
         scale := Option.none, transform := Option.none,
         dstSize := Option.none, srcRect := Option.none },
       p.scale.isSome, p.transform.isSome,
       p.dstSize.isSome || p.srcRect.isSome) := by
  obtain ⟨b, off, opq, inp, fr, dmg, pf, sr, ds, sc, tr, xw, te, ct, ap, rp, es⟩ := p
  cases sc <;> cases tr <;> cases ds <;> cases sr <;>
    simp [takeScalars, effScale, effTransform, effDstSize, effSrcRect]

/-- C5: applying a commit that changes the viewport such that a source
rectangle with non-integer width or height is in effect with no
destination size set fails with the size-ambiguity protocol error
`NonIntegerViewportSize`; the concrete fractional crop (0,0,10.5,20) is
rejected without a destination size, accepted with destination size
(10,20), and the integer crop (0,0,10,20) is accepted without one. -/
theorem viewport_non_integer_size_spec (s : Surface) (p : PendingState) (r : SrcRect) :
    (s.destroyed = false →
      (p.dstSize.isSome || p.srcRect.isSome) = true →
      effSrcRect s p = some r →
      effDstSize s p = Option.none →
      (r.w.isInteger && r.h.isInteger) = false →
      Surface.applyState s p = .error WlSurfaceError.nonIntegerViewportSize) ∧
    Surface.applyState {} pendingFractionalCrop =
      .error WlSurfaceError.nonIntegerViewportSize ∧
    (Surface.applyState {} pendingFractionalCropWithDst).isOk = true ∧
    (Surface.applyState {} pendingIntegerCrop).isOk = true := by
  refine ⟨fun hdes hvc hsrc hdst hint => ?_, by decide, by decide, by decide⟩
  cases hw : r.w.isInteger <;> cases hh : r.h.isInteger <;>
    simp_all [Surface.applyState, takeScalars_eq, checkViewportSize]

theorem scaleBufferPoints_x2 (r : SrcRect) (sc : Int) :
    (scaleBufferPoints r sc).x2 = (r.x.toRat + r.w.toRat) * (sc : ℚ) := by
  by_cases hsc : sc = 1
  · simp [scaleBufferPoints, hsc]
  · simp [scaleBufferPoints, hsc]
    ring

theorem scaleBufferPoints_y2 (r : SrcRect) (sc : Int) :
    (scaleBufferPoints r sc).y2 = (r.y.toRat + r.h.toRat) * (sc : ℚ) := by
  by_cases hsc : sc = 1
  · simp [scaleBufferPoints, hsc]
  · simp [scaleBufferPoints, hsc]
    ring

theorem normSampleRect_outside (s : Surface) (bp : BufferPoints) (br : Rect)
    (r : SrcRect) (hsrc : s.srcRect = some r)
    (hW : 0 < (s.bufferTransform.maybeSwap br.size).1)
    (hH : 0 < (s.bufferTransform.maybeSwap br.size).2)
    (hout : bp.x2 > ((s.bufferTransform.maybeSwap br.size).1 : ℚ) ∨
      bp.y2 > ((s.bufferTransform.maybeSwap br.size).2 : ℚ)) :
    normSampleRect s bp br = .error WlSurfaceError.viewportOutsideBuffer := by
  have hWq : (0 : ℚ) < ((s.bufferTransform.maybeSwap br.size).1 : ℚ) := by
    exact_mod_cast hW
  have hHq : (0 : ℚ) < ((s.bufferTransform.maybeSwap br.size).2 : ℚ) := by
    exact_mod_cast hH
  have hcond : bp.x2 / ((s.bufferTransform.maybeSwap br.size).1 : ℚ) > 1 ∨
      bp.y2 / ((s.bufferTransform.maybeSwap br.size).2 : ℚ) > 1 := by
    rcases hout with h | h
    · exact Or.inl ((one_lt_div hWq).mpr h)
    · exact Or.inr ((one_lt_div hHq).mpr h)
  unfold normSampleRect
  rw [hsrc]
  rcases hcond with h | h <;>
    simp [h]

theorem recomputeGeometry_outside (s : Surface) (old : Option Rect) (bc : Bool)
    (r : SrcRect) (sb : SurfaceBuffer)
    (hsrc : s.srcRect = some r) (hbuf : s.buffer = some sb)
    (hW : 0 < (s.bufferTransform.maybeSwap sb.buffer.rect.size).1)
    (hH : 0 < (s.bufferTransform.maybeSwap sb.buffer.rect.size).2)
    (hout : (scaleBufferPoints r s.bufferScale).x2 >
        ((s.bufferTransform.maybeSwap sb.buffer.rect.size).1 : ℚ) ∨
      (scaleBufferPoints r s.bufferScale).y2 >
        ((s.bufferTransform.maybeSwap sb.buffer.rect.size).2 : ℚ)) :
    recomputeGeometry s old bc true = .error WlSurfaceError.viewportOutsideBuffer := by
  have herr := normSampleRect_outside
    { s with
      srcRect := some r, buffer := some sb,
      bufferPoints := scaleBufferPoints r s.bufferScale }
    (scaleBufferPoints r s.bufferScale) sb.buffer.rect r rfl hW hH hout
  simp [recomputeGeometry, hsrc, hbuf, herr]

theorem applyState_viewport_outside (s : Surface) (p : PendingState)
    (r : SrcRect) (br : Rect)
    (hdes : s.destroyed = false)
    (hsrc : p.srcRect = some (some r))
    (hbr : effBufferRect s p = some br)
    (hint : effDstSize s p ≠ Option.none ∨
      (r.w.isInteger = true ∧ r.h.isInteger = true))
    (hW : 0 < ((effTransform s p).maybeSwap br.size).1)
    (hH : 0 < ((effTransform s p).maybeSwap br.size).2)
    (hout : (r.x.toRat + r.w.toRat) * (effScale s p : ℚ) >
        (((effTransform s p).maybeSwap br.size).1 : ℚ) ∨
      (r.y.toRat + r.h.toRat) * (effScale s p : ℚ) >
        (((effTransform s p).maybeSwap br.size).2 : ℚ)) :
    Surface.applyState s p = .error WlSurfaceError.viewportOutsideBuffer := by
  have hne : ¬ (s.destroyed = true) := by simp [hdes]
  have hsrcEff : effSrcRect s p = some r := by simp [effSrcRect, hsrc]
  have houtBp : (scaleBufferPoints r (effScale s p)).x2 >
      (((effTransform s p).maybeSwap br.size).1 : ℚ) ∨
      (scaleBufferPoints r (effScale s p)).y2 >
      (((effTransform s p).maybeSwap br.size).2 : ℚ) := by
    rw [scaleBufferPoints_x2, scaleBufferPoints_y2]
    exact hout
  have hchk : checkViewportSize
      { s with
        bufferScale := effScale s p, bufferTransform := effTransform s p,
        dstSize := effDstSize s p, srcRect := effSrcRect s p } true = .ok () := by
    rcases hint with hd | ⟨hw, hh⟩
    · rcases hdd : effDstSize s p with _ | d
      · exact absurd hdd hd
      · simp [checkViewportSize, hsrcEff, hdd]
    · rcases hdd : effDstSize s p with _ | d <;>
        simp [checkViewportSize, hsrcEff, hdd, hw, hh]
  rcases hpb : p.buffer with _ | change
  · -- no pending buffer change: the previously committed buffer is used
    rcases hsb : s.buffer with _ | sb
    · simp [effBufferRect, hpb, hsb] at hbr
    · have hrect : sb.buffer.rect = br := by
        simpa [effBufferRect, hpb, hsb] using hbr
      subst hrect
      have hrec := recomputeGeometry_outside
        { s with
          bufferScale := effScale s p, bufferTransform := effTransform s p,
          dstSize := effDstSize s p, srcRect := effSrcRect s p }
        Option.none false r sb hsrcEff hsb hW hH houtBp
      simp only [Surface.applyState, takeScalars_eq, hsrc, hpb,
        Option.isSome_some, Bool.or_true, Bool.true_or, applyBufferSwap]
      rw [if_neg hne]
      simp only [hchk, hrec]
  · rcases change with _ | b
    · simp [effBufferRect, hpb] at hbr
    · have hrect : b.rect = br := by
        simpa [effBufferRect, hpb] using hbr
      subst hrect
      cases hex : p.explicitSync
      · have hrecT := recomputeGeometry_outside
          { s with
            bufferScale := effScale s p, bufferTransform := effTransform s p,
            dstSize := effDstSize s p, srcRect := effSrcRect s p,
            buffer := some (SurfaceBuffer.mk b [] AcquireSync.implicit ReleaseSync.implicit p.releasePoint),
            bufX := s.bufX + p.offset.1, bufY := s.bufY + p.offset.2,
            needExtentsUpdate := true }
          (Option.map (fun sb => sb.buffer.rect) s.buffer) true r
          (SurfaceBuffer.mk b [] AcquireSync.implicit ReleaseSync.implicit p.releasePoint)
          hsrcEff rfl hW hH houtBp
        have hrecF := recomputeGeometry_outside
          { s with
            bufferScale := effScale s p, bufferTransform := effTransform s p,
            dstSize := effDstSize s p, srcRect := effSrcRect s p,
            buffer := some (SurfaceBuffer.mk b [] AcquireSync.implicit ReleaseSync.implicit p.releasePoint),
            bufX := s.bufX + p.offset.1, bufY := s.bufY + p.offset.2 }
          (Option.map (fun sb => sb.buffer.rect) s.buffer) true r
          (SurfaceBuffer.mk b [] AcquireSync.implicit ReleaseSync.implicit p.releasePoint)
          hsrcEff rfl hW hH houtBp
        simp only [Surface.applyState, takeScalars_eq, hsrc, hpb, hex,
          Option.isSome_some, Bool.or_true, Bool.true_or, applyBufferSwap]
        rw [if_neg hne]
        simp only [hchk, apply_ite
          (fun S => recomputeGeometry S
            (Option.map (fun sb => sb.buffer.rect) s.buffer) true true),
          hrecT, hrecF, ite_self]
      · have hrecT := recomputeGeometry_outside
          { s with
            bufferScale := effScale s p, bufferTransform := effTransform s p,
            dstSize := effDstSize s p, srcRect := effSrcRect s p,
            buffer := some (SurfaceBuffer.mk b [] AcquireSync.unnecessary ReleaseSync.explicit p.releasePoint),
            bufX := s.bufX + p.offset.1, bufY := s.bufY + p.offset.2,
            needExtentsUpdate := true }
          (Option.map (fun sb => sb.buffer.rect) s.buffer) true r
          (SurfaceBuffer.mk b [] AcquireSync.unnecessary ReleaseSync.explicit p.releasePoint)
          hsrcEff rfl hW hH houtBp
        have hrecF := recomputeGeometry_outside
          { s with
            bufferScale := effScale s p, bufferTransform := effTransform s p,
            dstSize := effDstSize s p, srcRect := effSrcRect s p,
            buffer := some (SurfaceBuffer.mk b [] AcquireSync.unnecessary ReleaseSync.explicit p.releasePoint),
            bufX := s.bufX + p.offset.1, bufY := s.bufY + p.offset.2 }
          (Option.map (fun sb => sb.buffer.rect) s.buffer) true r
          (SurfaceBuffer.mk b [] AcquireSync.unnecessary ReleaseSync.explicit p.releasePoint)
          hsrcEff rfl hW hH houtBp
        simp only [Surface.applyState, takeScalars_eq, hsrc, hpb, hex,
          Option.isSome_some, Bool.or_true, Bool.true_or, applyBufferSwap]
        rw [if_neg hne]
        simp only [hchk, apply_ite
          (fun S => recomputeGeometry S
            (Option.map (fun sb => sb.buffer.rect) s.buffer) true true),
          hrecT, hrecF, ite_self]

/-- Witness for C5: the fractional crop (0,0,10.5,20) with no
destination size is rejected with the size-ambiguity error. -/
theorem viewport_non_integer_size_spec_witness :
    Surface.applyState {} pendingFractionalCrop =
      .error WlSurfaceError.nonIntegerViewportSize :=
  (viewport_non_integer_size_spec {} pendingFractionalCrop fractionalCropRect).1
    rfl rfl rfl rfl (by decide)

/-- C6: a commit that recomputes sample geometry with a buffer attached
and a source rectangle which, scaled by the buffer scale, extends beyond
the (transform-swapped) buffer pixel rectangle fails with the
`ViewportOutsideBuffer` protocol error instead of being clamped; in
particular the crop (0,0,200,200) against a 100x100 buffer at scale 1 is
rejected. -/
theorem viewport_outside_buffer_spec (s : Surface) (p : PendingState)
    (r : SrcRect) (br : Rect) :
    (s.destroyed = false →
      p.srcRect = some (some r) →
      effBufferRect s p = some br →
      (effDstSize s p ≠ Option.none ∨
        (r.w.isInteger = true ∧ r.h.isInteger = true)) →
      0 < ((effTransform s p).maybeSwap br.size).1 →
      0 < ((effTransform s p).maybeSwap br.size).2 →
      ((r.x.toRat + r.w.toRat) * (effScale s p : ℚ) >
          (((effTransform s p).maybeSwap br.size).1 : ℚ) ∨
        (r.y.toRat + r.h.toRat) * (effScale s p : ℚ) >
          (((effTransform s p).maybeSwap br.size).2 : ℚ)) →
      Surface.applyState s p = .error WlSurfaceError.viewportOutsideBuffer) ∧
    Surface.applyState {} pendingOversizeCrop =
      .error WlSurfaceError.viewportOutsideBuffer := by
  constructor
  · exact fun hdes hsrc hbr hint hW hH hout =>
      applyState_viewport_outside s p r br hdes hsrc hbr hint hW hH hout
  · exact applyState_viewport_outside {} pendingOversizeCrop oversizeCropRect
      (Rect.ofSize 100 100) rfl rfl rfl (Or.inr ⟨by decide, by decide⟩)
      (by decide) (by decide)
      (by norm_num [Fixed.toRat, Fixed.ofInt, effScale, effTransform,
        Transform.maybeSwap, Rect.size, Rect.ofSize, pendingOversizeCrop,
        oversizeCropRect])

/-- Witness for C6: the (0,0,200,200) crop against the 100x100 buffer at
scale 1 is rejected with the viewport-outside-buffer error. -/
theorem viewport_outside_buffer_spec_witness :
    Surface.applyState {} pendingOversizeCrop =
      .error WlSurfaceError.viewportOutsideBuffer :=
  (viewport_outside_buffer_spec {} pendingOversizeCrop oversizeCropRect
      (Rect.ofSize 100 100)).1
    rfl rfl rfl (Or.inr ⟨by decide, by decide⟩) (by decide) (by decide)
    (by norm_num [Fixed.toRat, Fixed.ofInt, effScale, effTransform,
      Transform.maybeSwap, Rect.size, Rect.ofSize, pendingOversizeCrop,
      oversizeCropRect])

theorem Fixed.toInt_ofInt (n : Int) : (Fixed.ofInt n).toInt = n := by
  simp [Fixed.toInt, Fixed.ofInt, Int.mul_fdiv_cancel]

theorem Fixed.toRat_ofInt (n : Int) : (Fixed.ofInt n).toRat = (n : ℚ) := by
  rw [Fixed.toRat, Fixed.ofInt]
  push_cast
  field_simp

theorem Fixed.isInteger_ofInt (n : Int) : (Fixed.ofInt n).isInteger = true := by
  simp [Fixed.isInteger, Fixed.ofInt, Int.mul_emod_left]

theorem rect_size_withSize (r : Rect) (w h : Int) : (r.withSize w h).size = (w, h) := by
  simp [Rect.size, Rect.withSize]

theorem recomputeGeometry_size_dst (s : Surface) (old : Option Rect) (bc tc : Bool)
    (s2 : Surface) (d : Int × Int)
    (h : recomputeGeometry s old bc tc = .ok s2) (hbt : (bc || tc) = true)
    (hd : s.dstSize = some d) :
    s2.bufferAbsPos.size = d := by
  rcases hsrc : s.srcRect with _ | r <;> rcases hb : s.buffer with _ | sb <;>
  · simp only [recomputeGeometry, hbt, hsrc, hd, hb, Bool.not_true,
      Bool.false_eq_true, if_false, Option.isNone_some, Bool.or_true,
      Option.isNone_none] at h
    repeat' split at h
    all_goals simp_all
    all_goals (subst h; simp [applyNewSize, rect_size_withSize])

theorem recomputeGeometry_size_crop (s : Surface) (old : Option Rect) (bc tc : Bool)
    (s2 : Surface) (r : SrcRect)
    (h : recomputeGeometry s old bc tc = .ok s2) (hbt : (bc || tc) = true)
    (hd : s.dstSize = Option.none) (hsrc : s.srcRect = some r) :
    s2.bufferAbsPos.size = (r.w.toInt, r.h.toInt) := by
  rcases hb : s.buffer with _ | sb <;>
  · simp only [recomputeGeometry, hbt, hsrc, hd, hb, Bool.not_true,
      Bool.false_eq_true, if_false, Option.isNone_some, Bool.or_true,
      Option.isNone_none] at h
    repeat' split at h
    all_goals simp_all
    all_goals (subst h; simp [applyNewSize, rect_size_withSize])

theorem recomputeGeometry_size_buffer (s : Surface) (old : Option Rect) (bc tc : Bool)
    (s2 : Surface) (sb : SurfaceBuffer)
    (h : recomputeGeometry s old bc tc = .ok s2) (hbt : (bc || tc) = true)
    (hd : s.dstSize = Option.none) (hsrc : s.srcRect = Option.none)
    (hb : s.buffer = some sb) :
    s2.bufferAbsPos.size =
      scaledBufferSize s.bufferTransform s.bufferScale sb.buffer.rect := by
  simp only [recomputeGeometry, hbt, hsrc, hd, hb, Bool.not_true,
    Bool.false_eq_true, if_false, Option.isNone_some, Bool.or_true,
    Option.isNone_none] at h
  repeat' split at h
  all_goals simp_all
  all_goals (subst h; simp [applyNewSize, rect_size_withSize])

/-- Counterexample for C8: with a source crop (0,0,50,50), no
destination size and the 100x100 buffer attached at scale 1, the applied
size is the crop size (50,50) — not the buffer-derived (100,100) the
claimed precedence (buffer before crop) would produce. -/
theorem dst_size_crop_beats_buffer :
    (Surface.applyState {} pendingHalfCrop).map (fun t => t.bufferAbsPos.size) =
      .ok (50, 50) ∧
    scaledBufferSize Transform.none 1 buf100.rect = (100, 100) ∧
    ((50 : Int), (50 : Int)) ≠ ((100 : Int), (100 : Int)) := by
  refine ⟨?_, by decide, by decide⟩
  norm_num [Surface.applyState, takeScalars_eq, checkViewportSize, applyBufferSwap,
    recomputeGeometry, scaleBufferPoints, normSampleRect, applyNewSize, flushRemaining,
    effSrcRect, effDstSize, effScale, effTransform, Fixed.toRat_ofInt, Fixed.toInt_ofInt,
    Fixed.isInteger_ofInt, Transform.maybeSwap, Rect.size, Rect.withSize, Rect.ofSize,
    pendingHalfCrop, halfCropRect, buf100, Except.map]

/-- C8 as amended: when a commit recomputes the destination size, an
explicitly set destination size always wins; otherwise, if a source-crop
rectangle is in effect, its (integer) size is used; only when neither is
set is the size derived from the attached buffer's pixel size,
transform-swapped and divided by the buffer scale with ceiling rounding.
Concretely: crop (0,0,50,50) with destination (25,30) applies (25,30);
the same crop without a destination applies (50,50) even though the
100x100 buffer is attached; a bare buffer attach at scale 3 applies
(34,34) = ceil(100/3). -/
theorem dst_size_precedence (s : Surface) (old : Option Rect) (bc tc : Bool)
    (s2 : Surface) (d : Int × Int) (r : SrcRect) (sb : SurfaceBuffer)
    (h : recomputeGeometry s old bc tc = .ok s2) (hbt : (bc || tc) = true) :
    (s.dstSize = some d → s2.bufferAbsPos.size = d) ∧
    (s.dstSize = Option.none → s.srcRect = some r →
      s2.bufferAbsPos.size = (r.w.toInt, r.h.toInt)) ∧
    (s.dstSize = Option.none → s.srcRect = Option.none → s.buffer = some sb →
      s2.bufferAbsPos.size =
        scaledBufferSize s.bufferTransform s.bufferScale sb.buffer.rect) ∧
    (Surface.applyState {} pendingHalfCropWithDst).map
      (fun t => t.bufferAbsPos.size) = .ok (25, 30) ∧
    (Surface.applyState {} pendingHalfCrop).map
      (fun t => t.bufferAbsPos.size) = .ok (50, 50) ∧
    (Surface.applyState {} pendingBufferScale3).map
      (fun t => t.bufferAbsPos.size) = .ok (34, 34) := by
  refine ⟨fun hd => recomputeGeometry_size_dst s old bc tc s2 d h hbt hd,
    fun hd hsrc => recomputeGeometry_size_crop s old bc tc s2 r h hbt hd hsrc,
    fun hd hsrc hb =>
      recomputeGeometry_size_buffer s old bc tc s2 sb h hbt hd hsrc hb,
    ?_, ?_, by decide⟩
  · norm_num [Surface.applyState, takeScalars_eq, checkViewportSize, applyBufferSwap,
      recomputeGeometry, scaleBufferPoints, normSampleRect, applyNewSize,
      flushRemaining, effSrcRect, effDstSize, effScale, effTransform,
      Fixed.toRat_ofInt, Fixed.toInt_ofInt, Fixed.isInteger_ofInt,
      Transform.maybeSwap, Rect.size, Rect.withSize, Rect.ofSize,
      pendingHalfCropWithDst, halfCropRect, buf100, Except.map]
  · norm_num [Surface.applyState, takeScalars_eq, checkViewportSize, applyBufferSwap,
      recomputeGeometry, scaleBufferPoints, normSampleRect, applyNewSize,
      flushRemaining, effSrcRect, effDstSize, effScale, effTransform,
      Fixed.toRat_ofInt, Fixed.toInt_ofInt, Fixed.isInteger_ofInt,
      Transform.maybeSwap, Rect.size, Rect.withSize, Rect.ofSize,
      pendingHalfCrop, halfCropRect, buf100, Except.map]

/-- Witness for the amended C8: a concrete recompute on a surface with
destination size (25, 30) applies exactly that size. -/
theorem dst_size_precedence_witness :
    (recomputeGeometry sDst Option.none true true).map
      (fun t => t.bufferAbsPos.size) = .ok (25, 30) := by
  obtain ⟨s2, hr⟩ : ∃ s2, recomputeGeometry sDst Option.none true true = .ok s2 :=
    ⟨_, rfl⟩
  have hsize := (dst_size_precedence sDst Option.none true true s2 (25, 30)
    halfCropRect sbExplicit hr rfl).1 rfl
  simp [hr, Except.map, hsize]

end Jay
